import Mathlib

/-!
Verification of the `DataFrameReader` configuration builder
(`src/snowflake/snowpark/dataframe_reader.py`).

The builder accumulates an optional user schema and a mutable options
dictionary, and terminal format methods (`csv`, `json`, `avro`, `parquet`,
`orc`, `xml`) construct a lazy `DataFrame` handle from the current state.

Modelling choices:
* Python dictionaries are mutable aliased objects, so the options dictionary
  lives in an explicit `Store` (a heap of dictionaries addressed by `Nat`
  references); the builder and the produced handles hold references into it.
* Session methods are modelled explicitly and every terminal method returns,
  besides its result, the list of remote-collaborator calls it performed,
  in evaluation order.
* Python `str()` semantics are transcribed exactly: `str(True) = "True"`,
  `str(False) = "False"`, integers print in decimal.
-/

namespace Snowpark

/-- Modelled from the spec: the column types of `snowflake.snowpark.types.sf_types`
(not under the provided sources). Only the constructors the reader needs:
"field descriptors (name + semantic type)" and the generic semi-structured
"variant" type. -/
inductive DataType where
  | IntegerType
  | StringType
  | VariantType
  | OtherType (tag : String)
deriving DecidableEq, Repr

/-- Modelled from the spec: a field descriptor, "name + semantic type". -/
structure StructField where
  name : String
  datatype : DataType
deriving DecidableEq, Repr

/-- Modelled from the spec: a `StructType` is "an ordered sequence of
(name, type) field descriptors". -/
structure StructType where
  fields : List StructField
deriving DecidableEq, Repr

/-- An `Attribute` of the analyzer layer: a column name plus its type. -/
structure Attribute where
  name : String
  datatype : DataType
deriving DecidableEq, Repr

/-- Modelled from the spec: `StructType.to_attributes` (not under the provided
sources); per the spec the handle's schema for csv is "the explicit schema's
field list, exactly as given". -/
def StructType.to_attributes (s : StructType) : List Attribute :=
  s.fields.map (fun f => ⟨f.name, f.datatype⟩)

/-- A Python dictionary from option keys to serialized values, kept in
insertion order as Python dictionaries are. -/
abbrev OptionsDict := List (String × String)

/-- Python dictionary assignment `d[k] = v`: overwrite in place when the key
is present, append otherwise. -/
def dictInsert (d : OptionsDict) (k v : String) : OptionsDict :=
  if d.any (fun p => p.1 == k) then
    d.map (fun p => if p.1 == k then (k, v) else p)
  else d ++ [(k, v)]

/-- The heap of live Python dictionaries, addressed by `Nat` references. -/
structure Store where
  dicts : List OptionsDict
deriving DecidableEq, Repr

/-- Dereference a dictionary. -/
def Store.get (s : Store) (r : Nat) : OptionsDict :=
  s.dicts.getD r []

/-- Overwrite the dictionary behind a reference. -/
def Store.put (s : Store) (r : Nat) (d : OptionsDict) : Store :=
  ⟨s.dicts.set r d⟩

/-- Python `str.lower` (ASCII range, which coincides with Python on the
ASCII option keys and values in use). -/
def pyLower (s : String) : String := ⟨s.data.map Char.toLower⟩

/-- Python `str.upper` (ASCII range, as for `pyLower`). -/
def pyUpper (s : String) : String := ⟨s.data.map Char.toUpper⟩

/-- The runtime values an option can be set to (`bool`, `int` or `str`). -/
inductive PyValue where
  | pyBool (b : Bool)
  | pyInt (i : Int)
  | pyStr (s : String)
deriving DecidableEq, Repr

/-- Python `str()` on these values: note `str(True) = "True"` and
`str(False) = "False"`, with a capital letter. -/
def pyStr : PyValue → String
  | .pyBool true => "True"
  | .pyBool false => "False"
  | .pyInt i => toString i
  | .pyStr s => s

/-- Modelled from the spec: `AnalyzerPackage.single_quote` (not under the
provided sources); per the spec it wraps the value in single quotes,
"escaping any embedded single quotes", producing a SQL string literal.
Embedded quotes are escaped by doubling, as SQL string literals do. -/
def single_quote (s : String) : String :=
  ⟨Char.ofNat 39 ::
    (s.data.flatMap (fun c => if c = Char.ofNat 39 then [c, c] else [c])
      ++ [Char.ofNat 39])⟩

/-- `DataFrameReader.__parse_value`: booleans and integers via Python `str`,
strings that spell a boolean case-insensitively pass through unchanged,
everything else is single-quoted. -/
def parse_value (v : PyValue) : String :=
  match v with
  | .pyBool _ => pyStr v
  | .pyInt _ => pyStr v
  | .pyStr s =>
    if pyLower s = "true" ∨ pyLower s = "false" then s
    else single_quote s

/-- The builder state: `__user_schema` (None when never set) and
`__cur_options`, a reference to its live options dictionary. -/
structure DataFrameReader where
  user_schema : Option StructType
  cur_options : Nat
deriving DecidableEq, Repr

/-- `DataFrameReader.__init__`: no schema, fresh empty options dictionary. -/
def DataFrameReader.mkReader (store : Store) : DataFrameReader × Store :=
  (⟨none, store.dicts.length⟩, ⟨store.dicts ++ [[]]⟩)

/-- `DataFrameReader.schema`: store the schema verbatim, replacing any
previous one; the builder is returned (mutated in place). -/
def DataFrameReader.schema (r : DataFrameReader) (s : StructType) : DataFrameReader :=
  { r with user_schema := some s }

/-- `DataFrameReader.option`: `self.__cur_options[key.upper()] = self.__parse_value(value)`. -/
def DataFrameReader.option (r : DataFrameReader) (store : Store) (key : String)
    (value : PyValue) : DataFrameReader × Store :=
  (r, store.put r.cur_options
        (dictInsert (store.get r.cur_options) (pyUpper key) (parse_value value)))

/-- `DataFrameReader.options`: apply `option` to every pair in order. -/
def DataFrameReader.options (r : DataFrameReader) (store : Store)
    (configs : List (String × PyValue)) : DataFrameReader × Store :=
  configs.foldl (fun p kv => p.1.option p.2 kv.1 kv.2) (r, store)

/-- The remote session collaborator; `getFullyQualifiedCurrentSchema` returns
this string. -/
structure Session where
  fullyQualifiedCurrentSchema : String
deriving DecidableEq, Repr

/-- A remote-collaborator call made by a terminal method, in evaluation
order: the namespace lookup and the plan construction. -/
inductive RemoteCall where
  | getFullyQualifiedCurrentSchema
  | read_file (path : String) (format : String) (optionsRef : Nat)
      (fqSchema : String) (schemaAttrs : List Attribute)
deriving DecidableEq, Repr

/-- The exceptions the reader raises: `SnowparkClientException` (csv without
schema) and `ValueError` (semi-structured format with schema). These two are
the local, synchronous schema-presence errors the spec groups under the name
`ConfigurationError`. -/
inductive ReadError where
  | snowparkClientException (msg : String)
  | valueError (msg : String)
deriving DecidableEq, Repr

/-- Modelled from the spec: the lazy plan built by
`plan_builder.read_file` (not under the provided sources) carries the path,
format tag, options, namespace and column schema. Per spec section 9 "the
source takes no defensive copy of the options mapping when embedding it into
a result handle", so the plan holds the dictionary reference it was passed. -/
structure SnowflakePlan where
  path : String
  format : String
  optionsRef : Nat
  fullyQualifiedSchema : String
  schemaAttrs : List Attribute
deriving DecidableEq, Repr

/-- The result handle returned to the caller. -/
structure DataFrame where
  plan : SnowflakePlan
deriving DecidableEq, Repr

instance {ε α : Type} [DecidableEq ε] [DecidableEq α] : DecidableEq (Except ε α) := fun a b =>
  match a, b with
  | .error e1, .error e2 =>
    if h : e1 = e2 then .isTrue (by rw [h]) else .isFalse (by simp [h])
  | .error _, .ok _ => .isFalse (by simp)
  | .ok _, .error _ => .isFalse (by simp)
  | .ok a1, .ok a2 =>
    if h : a1 = a2 then .isTrue (by rw [h]) else .isFalse (by simp [h])

/-- The outcome of a terminal format method: the raised exception or the
produced handle, the builder state and store after the call, and the list of
remote-collaborator calls made. -/
structure ReadOutcome where
  result : Except ReadError DataFrame
  reader : DataFrameReader
  store : Store
  remoteCalls : List RemoteCall
deriving DecidableEq, Repr

/-- `DataFrameReader.csv`: raises `SnowparkClientException` when no user
schema is set (before any session call); otherwise resolves the namespace and
builds the plan from the current options reference and the schema attributes. -/
def DataFrameReader.csv (r : DataFrameReader) (session : Session) (store : Store)
    (path : String) : ReadOutcome :=
  match r.user_schema with
  | none =>
    ⟨.error (.snowparkClientException "Must provide user schema before reading file"),
      r, store, []⟩
  | some sch =>
    ⟨.ok ⟨⟨path, "csv", r.cur_options, session.fullyQualifiedCurrentSchema,
        sch.to_attributes⟩⟩,
      r, store,
      [.getFullyQualifiedCurrentSchema,
       .read_file path "csv" r.cur_options session.fullyQualifiedCurrentSchema
         sch.to_attributes]⟩

/-- `DataFrameReader.__read_semi_structured_file`: raises `ValueError` when a
user schema is set (before any session call); otherwise builds the plan with
the fixed single-column variant schema. The column name in the source is the
quoted identifier `"$1"`. -/
def DataFrameReader.read_semi_structured_file (r : DataFrameReader) (session : Session)
    (store : Store) (path : String) (format : String) : ReadOutcome :=
  match r.user_schema with
  | some _ =>
    ⟨.error (.valueError ("Read " ++ format ++ " does not support user schema")),
      r, store, []⟩
  | none =>
    ⟨.ok ⟨⟨path, format, r.cur_options, session.fullyQualifiedCurrentSchema,
        [⟨"\"$1\"", DataType.VariantType⟩]⟩⟩,
      r, store,
      [.getFullyQualifiedCurrentSchema,
       .read_file path format r.cur_options session.fullyQualifiedCurrentSchema
         [⟨"\"$1\"", DataType.VariantType⟩]]⟩

/-- `DataFrameReader.json`. -/
def DataFrameReader.json (r : DataFrameReader) (session : Session) (store : Store)
    (path : String) : ReadOutcome :=
  r.read_semi_structured_file session store path "JSON"

/-- `DataFrameReader.avro`. -/
def DataFrameReader.avro (r : DataFrameReader) (session : Session) (store : Store)
    (path : String) : ReadOutcome :=
  r.read_semi_structured_file session store path "AVRO"

/-- `DataFrameReader.parquet`. -/
def DataFrameReader.parquet (r : DataFrameReader) (session : Session) (store : Store)
    (path : String) : ReadOutcome :=
  r.read_semi_structured_file session store path "PARQUET"

/-- `DataFrameReader.orc`. -/
def DataFrameReader.orc (r : DataFrameReader) (session : Session) (store : Store)
    (path : String) : ReadOutcome :=
  r.read_semi_structured_file session store path "ORC"

/-- `DataFrameReader.xml`. -/
def DataFrameReader.xml (r : DataFrameReader) (session : Session) (store : Store)
    (path : String) : ReadOutcome :=
  r.read_semi_structured_file session store path "XML"

/-- A non-terminal configuration call on the builder. -/
inductive ConfigCall where
  | schemaCall (s : StructType)
  | optionCall (k : String) (v : PyValue)
  | optionsCall (cfg : List (String × PyValue))
deriving DecidableEq, Repr

/-- Run a sequence of configuration calls on the builder. -/
def applyCalls (r : DataFrameReader) (store : Store) :
    List ConfigCall → DataFrameReader × Store
  | [] => (r, store)
  | .schemaCall s :: rest => applyCalls (r.schema s) store rest
  | .optionCall k v :: rest =>
    let p := r.option store k v
    applyCalls p.1 p.2 rest
  | .optionsCall cfg :: rest =>
    let p := r.options store cfg
    applyCalls p.1 p.2 rest

/-! Helper lemmas about the store and the dictionary operations. -/

/-- Dereferencing right after overwriting a valid reference yields the new
dictionary. -/
theorem Store.get_put_self (s : Store) (r : Nat) (d : OptionsDict)
    (h : r < s.dicts.length) : (s.put r d).get r = d := by
  simp [Store.get, Store.put, List.getD_eq_getElem?_getD, List.getElem?_set_self h]

/-- `put` does not change the number of live dictionaries. -/
theorem Store.put_length (s : Store) (r : Nat) (d : OptionsDict) :
    (s.put r d).dicts.length = s.dicts.length := by
  simp [Store.put]

/-- What an `option` call stores, read back through the builder reference. -/
theorem option_get (r : DataFrameReader) (store : Store) (key : String) (v : PyValue)
    (h : r.cur_options < store.dicts.length) :
    ((r.option store key v).2).get r.cur_options
      = dictInsert (store.get r.cur_options) (pyUpper key) (parse_value v) :=
  Store.get_put_self _ _ _ h

/-- Inserting a key that is absent from the head entry walks past it. -/
theorem dictInsert_cons_ne (a : String × String) (t : OptionsDict) (k v : String)
    (h : (a.1 == k) = false) :
    dictInsert (a :: t) k v = a :: dictInsert t k v := by
  have hany : (a :: t).any (fun p => p.1 == k) = t.any (fun p => p.1 == k) := by
    simp [List.any_cons, h]
  unfold dictInsert
  rw [hany]
  by_cases ht : t.any (fun p => p.1 == k) = true
  · rw [if_pos ht, if_pos ht, List.map_cons, if_neg (by simp [h])]
  · rw [if_neg ht, if_neg ht, List.cons_append]

/-- When the keys of a dictionary are pairwise distinct, insertion leaves
exactly one entry for the inserted key, carrying the inserted value. -/
theorem dictInsert_filter_self (d : OptionsDict) (k v : String)
    (hnd : (d.map Prod.fst).Nodup) :
    (dictInsert d k v).filter (fun p => p.1 == k) = [(k, v)] := by
  induction d with
  | nil => simp [dictInsert]
  | cons a t ih =>
    have hnd2 : a.1 ∉ t.map Prod.fst ∧ (t.map Prod.fst).Nodup := by
      rw [List.map_cons, List.nodup_cons] at hnd
      exact hnd
    obtain ⟨hmem, hnd'⟩ := hnd2
    by_cases hak : (a.1 == k) = true
    · have hkey : a.1 = k := eq_of_beq hak
      have htnone : ∀ p ∈ t, (p.1 == k) = false := by
        intro p hp
        have hne : p.1 ≠ k := fun hpk => hmem (hkey ▸ hpk ▸ List.mem_map_of_mem Prod.fst hp)
        simpa using hne
      have hmap : t.map (fun p => if p.1 == k then (k, v) else p) = t := by
        conv_rhs => rw [← List.map_id t]
        apply List.map_congr_left
        intro p hp
        simp [htnone p hp]
      have hstep : dictInsert (a :: t) k v = (k, v) :: t := by
        have hany : ((a :: t).any (fun p => p.1 == k)) = true := by
          simp [List.any_cons, hak]
        simp only [dictInsert, hany, if_true, List.map_cons, hak, hmap]
      rw [hstep, List.filter_cons_of_pos (by simp)]
      rw [List.filter_eq_nil_iff.2 (fun p hp => by simp [htnone p hp])]
    · rw [dictInsert_cons_ne a t k v (by simpa using hak)]
      rw [List.filter_cons_of_neg (by simpa using hak)]
      exact ih hnd'

/-- Insertion preserves distinctness of the keys. -/
theorem dictInsert_keys_nodup (d : OptionsDict) (k v : String)
    (hnd : (d.map Prod.fst).Nodup) :
    ((dictInsert d k v).map Prod.fst).Nodup := by
  unfold dictInsert
  by_cases h : d.any (fun p => p.1 == k) = true
  · rw [if_pos h]
    have hkeys : (d.map (fun p => if p.1 == k then (k, v) else p)).map Prod.fst
        = d.map Prod.fst := by
      rw [List.map_map]
      apply List.map_congr_left
      intro p hp
      by_cases hpk : (p.1 == k) = true
      · simp only [Function.comp_apply, if_pos hpk]
        exact (eq_of_beq hpk).symm
      · simp only [Function.comp_apply]
        rw [if_neg hpk]
    rw [hkeys]
    exact hnd
  · rw [if_neg h, List.map_append]
    have hk : k ∉ d.map Prod.fst := by
      intro hmem
      obtain ⟨p, hp, hpk⟩ := List.mem_map.1 hmem
      exact h (List.any_eq_true.2 ⟨p, hp, by simp [hpk]⟩)
    show (d.map Prod.fst ++ [k]).Nodup
    rw [← List.concat_eq_append]
    exact List.Nodup.concat hk hnd

/-- `option` returns the very same builder object; the mutation happens
behind its dictionary reference. -/
theorem option_reader_eq (r : DataFrameReader) (store : Store) (k : String)
    (v : PyValue) : (r.option store k v).1 = r := rfl

/-- `options` returns the very same builder object. -/
theorem options_reader_eq (r : DataFrameReader) (store : Store)
    (cfg : List (String × PyValue)) : (r.options store cfg).1 = r := by
  induction cfg generalizing store with
  | nil => rfl
  | cons kv rest ih =>
    show (rest.foldl (fun p q => p.1.option p.2 q.1 q.2) (r.option store kv.1 kv.2)).1 = r
    exact ih _

/-- No configuration call can unset the schema once it is set. -/
theorem applyCalls_user_schema_isSome (r : DataFrameReader) (store : Store)
    (cs : List ConfigCall) (h : r.user_schema.isSome) :
    ((applyCalls r store cs).1).user_schema.isSome := by
  induction cs generalizing r store with
  | nil => exact h
  | cons c rest ih =>
    cases c with
    | schemaCall s => exact ih _ _ (by simp [DataFrameReader.schema])
    | optionCall k v => exact ih _ _ h
    | optionsCall cfg => exact ih _ _ (by rw [options_reader_eq]; exact h)

/-! Claim theorems. -/

/-- C2: calling `csv` on a builder with no user schema fails with
`SnowparkClientException` ("Must provide user schema before reading file"),
the spec's `ConfigurationError`, and performs no remote-collaborator call
(no namespace resolution, no plan construction); with a user schema set,
`csv` constructs and returns a result handle built from the current state. -/
theorem C2_csv_schema_required (r : DataFrameReader) (session : Session)
    (store : Store) (path : String) :
    (r.user_schema = none →
      (r.csv session store path).result
          = .error (.snowparkClientException "Must provide user schema before reading file")
        ∧ (r.csv session store path).remoteCalls = [])
    ∧ (∀ sch, r.user_schema = some sch →
        (r.csv session store path).result
          = .ok ⟨⟨path, "csv", r.cur_options, session.fullyQualifiedCurrentSchema,
              sch.to_attributes⟩⟩) := by
  constructor
  · intro h
    unfold DataFrameReader.csv
    rw [h]
    exact ⟨rfl, rfl⟩
  · intro sch h
    unfold DataFrameReader.csv
    rw [h]

/-- C2 witness: a concrete schemaless builder fails without remote calls and
a concrete builder with a two-field schema obtains a handle. -/
theorem C2_csv_schema_required_witness :
    (((DataFrameReader.mk none 0).csv ⟨"DB.SCH"⟩ ⟨[[]]⟩ "@stage/f.csv").result
        = .error (.snowparkClientException "Must provide user schema before reading file")
      ∧ ((DataFrameReader.mk none 0).csv ⟨"DB.SCH"⟩ ⟨[[]]⟩ "@stage/f.csv").remoteCalls = [])
    ∧ ((DataFrameReader.mk
          (some ⟨[⟨"a", DataType.IntegerType⟩, ⟨"b", DataType.StringType⟩]⟩) 0).csv
          ⟨"DB.SCH"⟩ ⟨[[]]⟩ "@stage/f.csv").result
        = .ok ⟨⟨"@stage/f.csv", "csv", 0, "DB.SCH",
            [⟨"a", DataType.IntegerType⟩, ⟨"b", DataType.StringType⟩]⟩⟩ :=
  ⟨(C2_csv_schema_required ⟨none, 0⟩ ⟨"DB.SCH"⟩ ⟨[[]]⟩ "@stage/f.csv").1 rfl,
   (C2_csv_schema_required
      ⟨some ⟨[⟨"a", DataType.IntegerType⟩, ⟨"b", DataType.StringType⟩]⟩, 0⟩
      ⟨"DB.SCH"⟩ ⟨[[]]⟩ "@stage/f.csv").2 _ rfl⟩

/-- C3: each of `json`, `avro`, `parquet`, `orc`, `xml` on a builder whose
user schema is set fails with `ValueError` ("Read FORMAT does not support
user schema"), the spec's `ConfigurationError`, and performs no
remote-collaborator call; with no user schema set, each constructs and
returns a result handle. -/
theorem C3_semi_structured_schema_forbidden (r : DataFrameReader) (session : Session)
    (store : Store) (path : String) :
    (∀ sch, r.user_schema = some sch →
      ((r.json session store path).result
          = .error (.valueError "Read JSON does not support user schema")
        ∧ (r.json session store path).remoteCalls = [])
      ∧ ((r.avro session store path).result
          = .error (.valueError "Read AVRO does not support user schema")
        ∧ (r.avro session store path).remoteCalls = [])
      ∧ ((r.parquet session store path).result
          = .error (.valueError "Read PARQUET does not support user schema")
        ∧ (r.parquet session store path).remoteCalls = [])
      ∧ ((r.orc session store path).result
          = .error (.valueError "Read ORC does not support user schema")
        ∧ (r.orc session store path).remoteCalls = [])
      ∧ ((r.xml session store path).result
          = .error (.valueError "Read XML does not support user schema")
        ∧ (r.xml session store path).remoteCalls = []))
    ∧ (r.user_schema = none →
        (∃ df, (r.json session store path).result = .ok df)
        ∧ (∃ df, (r.avro session store path).result = .ok df)
        ∧ (∃ df, (r.parquet session store path).result = .ok df)
        ∧ (∃ df, (r.orc session store path).result = .ok df)
        ∧ (∃ df, (r.xml session store path).result = .ok df)) := by
  constructor
  · intro sch h
    unfold DataFrameReader.json DataFrameReader.avro DataFrameReader.parquet
      DataFrameReader.orc DataFrameReader.xml DataFrameReader.read_semi_structured_file
    rw [h]
    exact ⟨⟨rfl, rfl⟩, ⟨rfl, rfl⟩, ⟨rfl, rfl⟩, ⟨rfl, rfl⟩, ⟨rfl, rfl⟩⟩
  · intro h
    unfold DataFrameReader.json DataFrameReader.avro DataFrameReader.parquet
      DataFrameReader.orc DataFrameReader.xml DataFrameReader.read_semi_structured_file
    rw [h]
    exact ⟨⟨_, rfl⟩, ⟨_, rfl⟩, ⟨_, rfl⟩, ⟨_, rfl⟩, ⟨_, rfl⟩⟩

/-- C3 witness: a concrete builder carrying a one-field schema is rejected
by `json` with no remote calls, and a concrete schemaless builder obtains a
handle from `xml`. -/
theorem C3_semi_structured_schema_forbidden_witness :
    (((DataFrameReader.mk (some ⟨[⟨"a", DataType.IntegerType⟩]⟩) 0).json
          ⟨"DB.SCH"⟩ ⟨[[]]⟩ "@stage/f.json").result
        = .error (.valueError "Read JSON does not support user schema")
      ∧ ((DataFrameReader.mk (some ⟨[⟨"a", DataType.IntegerType⟩]⟩) 0).json
          ⟨"DB.SCH"⟩ ⟨[[]]⟩ "@stage/f.json").remoteCalls = [])
    ∧ ∃ df, ((DataFrameReader.mk none 0).xml ⟨"DB.SCH"⟩ ⟨[[]]⟩ "@stage/f.xml").result
        = .ok df :=
  ⟨((C3_semi_structured_schema_forbidden ⟨some ⟨[⟨"a", DataType.IntegerType⟩]⟩, 0⟩
      ⟨"DB.SCH"⟩ ⟨[[]]⟩ "@stage/f.json").1 _ rfl).1,
   ((C3_semi_structured_schema_forbidden ⟨none, 0⟩
      ⟨"DB.SCH"⟩ ⟨[[]]⟩ "@stage/f.xml").2 rfl).2.2.2.2⟩

/-- C8: with no user schema set, every semi-structured format method
(`json`, `avro`, `parquet`, `orc`, `xml`) produces a handle whose column
schema is exactly one attribute: the quoted identifier `"$1"` of variant
type. -/
theorem C8_variant_single_column (r : DataFrameReader) (session : Session)
    (store : Store) (path : String) (h : r.user_schema = none) :
    (r.json session store path).result
        = .ok ⟨⟨path, "JSON", r.cur_options, session.fullyQualifiedCurrentSchema,
            [⟨"\"$1\"", DataType.VariantType⟩]⟩⟩
    ∧ (r.avro session store path).result
        = .ok ⟨⟨path, "AVRO", r.cur_options, session.fullyQualifiedCurrentSchema,
            [⟨"\"$1\"", DataType.VariantType⟩]⟩⟩
    ∧ (r.parquet session store path).result
        = .ok ⟨⟨path, "PARQUET", r.cur_options, session.fullyQualifiedCurrentSchema,
            [⟨"\"$1\"", DataType.VariantType⟩]⟩⟩
    ∧ (r.orc session store path).result
        = .ok ⟨⟨path, "ORC", r.cur_options, session.fullyQualifiedCurrentSchema,
            [⟨"\"$1\"", DataType.VariantType⟩]⟩⟩
    ∧ (r.xml session store path).result
        = .ok ⟨⟨path, "XML", r.cur_options, session.fullyQualifiedCurrentSchema,
            [⟨"\"$1\"", DataType.VariantType⟩]⟩⟩ := by
  unfold DataFrameReader.json DataFrameReader.avro DataFrameReader.parquet
    DataFrameReader.orc DataFrameReader.xml DataFrameReader.read_semi_structured_file
  rw [h]
  exact ⟨rfl, rfl, rfl, rfl, rfl⟩

/-- C8 witness: a concrete schemaless builder gets the single variant
column from `json`. -/
theorem C8_variant_single_column_witness :
    ((DataFrameReader.mk none 0).json ⟨"DB.SCH"⟩ ⟨[[]]⟩ "@stage/f.json").result
        = .ok ⟨⟨"@stage/f.json", "JSON", 0, "DB.SCH",
            [⟨"\"$1\"", DataType.VariantType⟩]⟩⟩ :=
  (C8_variant_single_column ⟨none, 0⟩ ⟨"DB.SCH"⟩ ⟨[[]]⟩ "@stage/f.json" rfl).1

/-- C4 counterexample: `option("trim_space", True)` goes through Python
`str(True)` and stores the capitalized literal `"True"`, not the lower-case
`"true"` the claim states. -/
theorem C4_counterexample_bool_capitalized :
    (((DataFrameReader.mk none 0).option ⟨[[]]⟩ "trim_space" (PyValue.pyBool true)).2).get 0
        = [("TRIM_SPACE", "True")]
      ∧ "True" ≠ "true" :=
  ⟨by decide, by decide⟩

/-- C4 amended: `option` stores a boolean via Python `str()` as the
capitalized literal `"True"`/`"False"` (so `option("trim_space", True)`
stores `TRIM_SPACE -> "True"`), and an integer as its plain decimal string
without quotes (so `option("skip_header", 1)` stores `SKIP_HEADER -> "1"`). -/
theorem C4_amended_bool_int_serialization (r : DataFrameReader) (store : Store)
    (key : String) (h : r.cur_options < store.dicts.length) :
    (∀ b : Bool, ((r.option store key (.pyBool b)).2).get r.cur_options
        = dictInsert (store.get r.cur_options) (pyUpper key)
            (if b then "True" else "False"))
    ∧ (∀ i : Int, ((r.option store key (.pyInt i)).2).get r.cur_options
        = dictInsert (store.get r.cur_options) (pyUpper key) (toString i)) := by
  constructor
  · intro b
    rw [option_get _ _ _ _ h]
    cases b <;> rfl
  · intro i
    rw [option_get _ _ _ _ h]
    rfl

/-- C4 amended witness: `trim_space`/`True` stores `"True"`,
`skip_header`/`1` stores `"1"`. -/
theorem C4_amended_bool_int_serialization_witness :
    (((DataFrameReader.mk none 0).option ⟨[[]]⟩ "trim_space" (PyValue.pyBool true)).2).get 0
        = [("TRIM_SPACE", "True")]
    ∧ (((DataFrameReader.mk none 0).option ⟨[[]]⟩ "skip_header" (PyValue.pyInt 1)).2).get 0
        = [("SKIP_HEADER", "1")] :=
  ⟨((C4_amended_bool_int_serialization ⟨none, 0⟩ ⟨[[]]⟩ "trim_space" (by decide)).1
      true).trans (by decide),
   ((C4_amended_bool_int_serialization ⟨none, 0⟩ ⟨[[]]⟩ "skip_header" (by decide)).2
      1).trans (by decide)⟩

/-- C5: two `option` calls whose keys agree up to upper-casing leave exactly
one entry for that key in the builder dictionary, stored under the
upper-cased key with the later call's serialized value. -/
theorem C5_case_insensitive_last_write_wins (r : DataFrameReader) (store : Store)
    (k1 k2 : String) (v1 v2 : PyValue)
    (href : r.cur_options < store.dicts.length)
    (hnd : ((store.get r.cur_options).map Prod.fst).Nodup)
    (hk : pyUpper k1 = pyUpper k2) :
    ((((r.option store k1 v1).1.option (r.option store k1 v1).2 k2 v2).2).get
        r.cur_options).filter (fun p => p.1 == pyUpper k2)
      = [(pyUpper k2, parse_value v2)] := by
  have h1 : ((r.option store k1 v1).2).get r.cur_options
      = dictInsert (store.get r.cur_options) (pyUpper k1) (parse_value v1) :=
    option_get _ _ _ _ href
  have href2 : r.cur_options < ((r.option store k1 v1).2).dicts.length := by
    show r.cur_options < (store.put _ _).dicts.length
    rw [Store.put_length]
    exact href
  have h2 : (((r.option store k1 v1).1.option (r.option store k1 v1).2 k2 v2).2).get
      r.cur_options
      = dictInsert (((r.option store k1 v1).2).get r.cur_options) (pyUpper k2)
          (parse_value v2) :=
    option_get (r.option store k1 v1).1 _ _ _ href2
  rw [h2, h1, hk]
  exact dictInsert_filter_self _ _ _ (dictInsert_keys_nodup _ _ _ hnd)

/-- C5 witness: `option("compression", "lzo")` then
`option("COMPRESSION", "none")` leaves the single entry
`COMPRESSION -> 'none'`. -/
theorem C5_case_insensitive_last_write_wins_witness :
    (((((DataFrameReader.mk none 0).option ⟨[[]]⟩ "compression" (PyValue.pyStr "lzo")).1.option
        ((DataFrameReader.mk none 0).option ⟨[[]]⟩ "compression" (PyValue.pyStr "lzo")).2
        "COMPRESSION" (PyValue.pyStr "none")).2).get 0).filter
        (fun p => p.1 == pyUpper "COMPRESSION")
      = [("COMPRESSION", "\x27none\x27")] :=
  (C5_case_insensitive_last_write_wins ⟨none, 0⟩ ⟨[[]]⟩ "compression" "COMPRESSION"
      (PyValue.pyStr "lzo") (PyValue.pyStr "none")
      (by decide) (by decide) (by decide)).trans (by decide)

/-- C6: a string value that spells a boolean case-insensitively is stored
unchanged, keeping the caller's original casing, with no quoting. -/
theorem C6_boolean_string_passthrough (r : DataFrameReader) (store : Store)
    (key s : String) (href : r.cur_options < store.dicts.length)
    (hs : pyLower s = "true" ∨ pyLower s = "false") :
    ((r.option store key (.pyStr s)).2).get r.cur_options
      = dictInsert (store.get r.cur_options) (pyUpper key) s := by
  rw [option_get _ _ _ _ href]
  have heq : parse_value (.pyStr s)
      = if pyLower s = "true" ∨ pyLower s = "false" then s else single_quote s := rfl
  rw [heq, if_pos hs]

/-- C6 witness: `option("flag", "TRUE")` stores `FLAG -> "TRUE"`. -/
theorem C6_boolean_string_passthrough_witness :
    (((DataFrameReader.mk none 0).option ⟨[[]]⟩ "flag" (PyValue.pyStr "TRUE")).2).get 0
      = [("FLAG", "TRUE")] :=
  (C6_boolean_string_passthrough ⟨none, 0⟩ ⟨[[]]⟩ "flag" "TRUE"
      (by decide) (by decide)).trans (by decide)

/-- On a string containing no single-quote character, escaping is the
identity. -/
theorem flatMap_escape_eq_self (l : List Char) (hq : Char.ofNat 39 ∉ l) :
    l.flatMap (fun c => if c = Char.ofNat 39 then [c, c] else [c]) = l := by
  induction l with
  | nil => rfl
  | cons c t ih =>
    have hcne : ¬c = Char.ofNat 39 := by
      intro hc
      subst hc
      exact hq (List.mem_cons_self _ _)
    rw [List.flatMap_cons, if_neg hcne, ih (fun hm => hq (List.mem_cons_of_mem c hm))]
    rfl

/-- C7: any other string value is stored wrapped in single quotes with
embedded single quotes escaped, via the quoting routine `single_quote`
(modelled from the spec); for a string with no embedded single quote the
stored value is exactly the string between two quote characters. -/
theorem C7_string_single_quoted (r : DataFrameReader) (store : Store)
    (key s : String) (href : r.cur_options < store.dicts.length)
    (hs : ¬(pyLower s = "true" ∨ pyLower s = "false")) :
    ((r.option store key (.pyStr s)).2).get r.cur_options
        = dictInsert (store.get r.cur_options) (pyUpper key) (single_quote s)
      ∧ (Char.ofNat 39 ∉ s.data → single_quote s = "\x27" ++ s ++ "\x27") := by
  constructor
  · rw [option_get _ _ _ _ href]
    have heq : parse_value (.pyStr s)
        = if pyLower s = "true" ∨ pyLower s = "false" then s else single_quote s := rfl
    rw [heq, if_neg hs]
  · intro hq
    apply String.ext
    show Char.ofNat 39 ::
        (s.data.flatMap (fun c => if c = Char.ofNat 39 then [c, c] else [c])
          ++ [Char.ofNat 39]) = ("\x27" ++ s ++ "\x27").data
    rw [flatMap_escape_eq_self s.data hq]
    rfl

/-- C7 witness: `option("pattern", ".*.csv")` stores the single-quoted
`PATTERN -> '.*.csv'`. -/
theorem C7_string_single_quoted_witness :
    (((DataFrameReader.mk none 0).option ⟨[[]]⟩ "pattern" (PyValue.pyStr ".*.csv")).2).get 0
        = [("PATTERN", "\x27.*.csv\x27")]
      ∧ single_quote ".*.csv" = "\x27" ++ ".*.csv" ++ "\x27" :=
  ⟨((C7_string_single_quoted ⟨none, 0⟩ ⟨[[]]⟩ "pattern" ".*.csv"
      (by decide) (by decide)).1).trans (by decide),
   (C7_string_single_quoted ⟨none, 0⟩ ⟨[[]]⟩ "pattern" ".*.csv"
      (by decide) (by decide)).2 (by decide)⟩

/-- C1 counterexample: the handle produced by `json` carries the builder's
live dictionary reference (first conjunct: its plan holds reference 0, the
builder's `cur_options`); a later `option` call on the same builder changes
the dictionary behind exactly that reference (second conjunct), so the
already-produced handle does not receive an immutable snapshot of the
options mapping. -/
theorem C1_counterexample_no_options_snapshot :
    ((DataFrameReader.mk none 0).json ⟨"DB.SCH"⟩ ⟨[[("COMPRESSION", "\x27lzo\x27")]]⟩
        "@stage/f.json").result
      = .ok ⟨⟨"@stage/f.json", "JSON", 0, "DB.SCH", [⟨"\"$1\"", DataType.VariantType⟩]⟩⟩
    ∧ (((DataFrameReader.mk none 0).option ⟨[[("COMPRESSION", "\x27lzo\x27")]]⟩
          "trim_space" (PyValue.pyBool true)).2).get
        (SnowflakePlan.mk "@stage/f.json" "JSON" 0 "DB.SCH"
          [⟨"\"$1\"", DataType.VariantType⟩]).optionsRef
      ≠ (⟨[[("COMPRESSION", "\x27lzo\x27")]]⟩ : Store).get
        (SnowflakePlan.mk "@stage/f.json" "JSON" 0 "DB.SCH"
          [⟨"\"$1\"", DataType.VariantType⟩]).optionsRef :=
  ⟨by decide, by decide⟩

/-- C1 amended: a format-selection call snapshots the schema — the attribute
list embedded in the handle is the value computed at construction time — but
it does not snapshot the options: the handle carries the builder's live
dictionary reference, so a later `option` call on the builder makes the
options seen through the already-produced handle equal the updated mapping. -/
theorem C1_amended_schema_snapshot_options_live (r : DataFrameReader)
    (session : Session) (store : Store) (path : String) (df : DataFrame)
    (k : String) (v : PyValue)
    (href : r.cur_options < store.dicts.length)
    (hdf : (r.csv session store path).result = .ok df
      ∨ (r.json session store path).result = .ok df) :
    df.plan.optionsRef = r.cur_options
    ∧ (∀ sch, r.user_schema = some sch → df.plan.schemaAttrs = sch.to_attributes)
    ∧ ((r.option store k v).2).get df.plan.optionsRef
        = dictInsert (store.get r.cur_options) (pyUpper k) (parse_value v) := by
  cases hsch : r.user_schema with
  | none =>
    rcases hdf with h | h
    · unfold DataFrameReader.csv at h
      rw [hsch] at h
      exact absurd h (by simp)
    · have h2 : (r.json session store path).result
          = .ok ⟨⟨path, "JSON", r.cur_options, session.fullyQualifiedCurrentSchema,
              [⟨"\"$1\"", DataType.VariantType⟩]⟩⟩ := by
        unfold DataFrameReader.json DataFrameReader.read_semi_structured_file
        rw [hsch]
      rw [h2] at h
      have hdf2 : df = ⟨⟨path, "JSON", r.cur_options, session.fullyQualifiedCurrentSchema,
          [⟨"\"$1\"", DataType.VariantType⟩]⟩⟩ := (Except.ok.inj h).symm
      subst hdf2
      refine ⟨rfl, ?_, ?_⟩
      · intro sch2 hsch2
        exact absurd hsch2 (by simp)
      · exact option_get _ _ _ _ href
  | some sch =>
    rcases hdf with h | h
    · have h2 : (r.csv session store path).result
          = .ok ⟨⟨path, "csv", r.cur_options, session.fullyQualifiedCurrentSchema,
              sch.to_attributes⟩⟩ := by
        unfold DataFrameReader.csv
        rw [hsch]
      rw [h2] at h
      have hdf2 : df = ⟨⟨path, "csv", r.cur_options, session.fullyQualifiedCurrentSchema,
          sch.to_attributes⟩⟩ := (Except.ok.inj h).symm
      subst hdf2
      refine ⟨rfl, ?_, ?_⟩
      · intro sch2 hsch2
        rw [Option.some.inj hsch2]
      · exact option_get _ _ _ _ href
    · unfold DataFrameReader.json DataFrameReader.read_semi_structured_file at h
      rw [hsch] at h
      exact absurd h (by simp)

/-- C1 amended witness: a concrete csv handle carries the builder's
dictionary reference 0, snapshots the one-field schema, and sees the
`TRIM_SPACE -> "True"` entry written by a later `option` call. -/
theorem C1_amended_schema_snapshot_options_live_witness :
    (⟨⟨"@p", "csv", 0, "NS", [⟨"a", DataType.IntegerType⟩]⟩⟩ : DataFrame).plan.optionsRef = 0
    ∧ (⟨⟨"@p", "csv", 0, "NS", [⟨"a", DataType.IntegerType⟩]⟩⟩ :
        DataFrame).plan.schemaAttrs = [⟨"a", DataType.IntegerType⟩]
    ∧ (((⟨some ⟨[⟨"a", DataType.IntegerType⟩]⟩, 0⟩ : DataFrameReader).option ⟨[[]]⟩
          "trim_space" (PyValue.pyBool true)).2).get
        (⟨⟨"@p", "csv", 0, "NS", [⟨"a", DataType.IntegerType⟩]⟩⟩ :
          DataFrame).plan.optionsRef
      = [("TRIM_SPACE", "True")] :=
  ⟨(C1_amended_schema_snapshot_options_live
      ⟨some ⟨[⟨"a", DataType.IntegerType⟩]⟩, 0⟩ ⟨"NS"⟩ ⟨[[]]⟩ "@p"
      ⟨⟨"@p", "csv", 0, "NS", [⟨"a", DataType.IntegerType⟩]⟩⟩
      "trim_space" (PyValue.pyBool true) (by decide) (.inl (by decide))).1,
   ((C1_amended_schema_snapshot_options_live
      ⟨some ⟨[⟨"a", DataType.IntegerType⟩]⟩, 0⟩ ⟨"NS"⟩ ⟨[[]]⟩ "@p"
      ⟨⟨"@p", "csv", 0, "NS", [⟨"a", DataType.IntegerType⟩]⟩⟩
      "trim_space" (PyValue.pyBool true) (by decide) (.inl (by decide))).2.1
      ⟨[⟨"a", DataType.IntegerType⟩]⟩ rfl).trans (by decide),
   ((C1_amended_schema_snapshot_options_live
      ⟨some ⟨[⟨"a", DataType.IntegerType⟩]⟩, 0⟩ ⟨"NS"⟩ ⟨[[]]⟩ "@p"
      ⟨⟨"@p", "csv", 0, "NS", [⟨"a", DataType.IntegerType⟩]⟩⟩
      "trim_space" (PyValue.pyBool true) (by decide) (.inl (by decide))).2.2).trans
      (by decide)⟩

/-- C9: once the schema is set, no sequence of `schema`, `option`, `options`
calls returns the builder to the schema-unset state: after any such sequence
the schema is still set, a schema-forbidding format method (`json`) still
fails its check, and `csv` still passes its schema-presence check and
returns a handle. -/
theorem C9_schema_set_absorbing (r : DataFrameReader) (store : Store)
    (cs : List ConfigCall) (session : Session) (path : String)
    (h : r.user_schema.isSome) :
    ((applyCalls r store cs).1.user_schema).isSome
    ∧ (∃ msg, ((applyCalls r store cs).1.json session (applyCalls r store cs).2 path).result
        = .error (.valueError msg))
    ∧ (∃ df, ((applyCalls r store cs).1.csv session (applyCalls r store cs).2 path).result
        = .ok df) := by
  have hs : ((applyCalls r store cs).1.user_schema).isSome :=
    applyCalls_user_schema_isSome r store cs h
  obtain ⟨sch, hsch⟩ := Option.isSome_iff_exists.1 hs
  refine ⟨hs, ⟨"Read JSON does not support user schema", ?_⟩,
    ⟨⟨⟨path, "csv", (applyCalls r store cs).1.cur_options,
        session.fullyQualifiedCurrentSchema, sch.to_attributes⟩⟩, ?_⟩⟩
  · unfold DataFrameReader.json DataFrameReader.read_semi_structured_file
    rw [hsch]
    rfl
  · unfold DataFrameReader.csv
    rw [hsch]

/-- C9 witness: a builder whose schema is set stays schema-set across a
schema replacement, an `option` call and an `options` call. -/
theorem C9_schema_set_absorbing_witness :
    ((⟨some ⟨[⟨"a", DataType.IntegerType⟩]⟩, 0⟩ : DataFrameReader).user_schema).isSome
    ∧ (((applyCalls ⟨some ⟨[⟨"a", DataType.IntegerType⟩]⟩, 0⟩ ⟨[[]]⟩
          [.schemaCall ⟨[⟨"b", DataType.StringType⟩]⟩, .optionCall "x" (.pyInt 2),
            .optionsCall [("y", .pyStr "z")]]).1.user_schema).isSome
      ∧ (∃ msg, ((applyCalls ⟨some ⟨[⟨"a", DataType.IntegerType⟩]⟩, 0⟩ ⟨[[]]⟩
            [.schemaCall ⟨[⟨"b", DataType.StringType⟩]⟩, .optionCall "x" (.pyInt 2),
              .optionsCall [("y", .pyStr "z")]]).1.json ⟨"NS"⟩
            (applyCalls ⟨some ⟨[⟨"a", DataType.IntegerType⟩]⟩, 0⟩ ⟨[[]]⟩
              [.schemaCall ⟨[⟨"b", DataType.StringType⟩]⟩, .optionCall "x" (.pyInt 2),
                .optionsCall [("y", .pyStr "z")]]).2 "@p").result
          = .error (.valueError msg))
      ∧ (∃ df, ((applyCalls ⟨some ⟨[⟨"a", DataType.IntegerType⟩]⟩, 0⟩ ⟨[[]]⟩
            [.schemaCall ⟨[⟨"b", DataType.StringType⟩]⟩, .optionCall "x" (.pyInt 2),
              .optionsCall [("y", .pyStr "z")]]).1.csv ⟨"NS"⟩
            (applyCalls ⟨some ⟨[⟨"a", DataType.IntegerType⟩]⟩, 0⟩ ⟨[[]]⟩
              [.schemaCall ⟨[⟨"b", DataType.StringType⟩]⟩, .optionCall "x" (.pyInt 2),
                .optionsCall [("y", .pyStr "z")]]).2 "@p").result
          = .ok df)) :=
  ⟨by decide,
   C9_schema_set_absorbing ⟨some ⟨[⟨"a", DataType.IntegerType⟩]⟩, 0⟩ ⟨[[]]⟩
     [.schemaCall ⟨[⟨"b", DataType.StringType⟩]⟩, .optionCall "x" (.pyInt 2),
       .optionsCall [("y", .pyStr "z")]] ⟨"NS"⟩ "@p" (by decide)⟩

/-- C10: when a format-selection call fails its schema-presence check, the
builder state is exactly unchanged: the reader and the store after the
failed call equal those before it (the error branch performs no mutation). -/
theorem C10_error_branch_preserves_state (r : DataFrameReader) (session : Session)
    (store : Store) (path format : String) :
    (∀ e, (r.csv session store path).result = .error e →
      (r.csv session store path).reader = r ∧ (r.csv session store path).store = store)
    ∧ (∀ e, (r.read_semi_structured_file session store path format).result = .error e →
      (r.read_semi_structured_file session store path format).reader = r
        ∧ (r.read_semi_structured_file session store path format).store = store) := by
  constructor
  · intro e _
    cases hsch : r.user_schema <;>
      (unfold DataFrameReader.csv; rw [hsch]; exact ⟨rfl, rfl⟩)
  · intro e _
    cases hsch : r.user_schema <;>
      (unfold DataFrameReader.read_semi_structured_file; rw [hsch]; exact ⟨rfl, rfl⟩)

/-- C10 witness: a concrete schemaless builder is left unchanged by the
failing `csv` call. -/
theorem C10_error_branch_preserves_state_witness :
    ((⟨none, 0⟩ : DataFrameReader).csv ⟨"NS"⟩ ⟨[[]]⟩ "@p").reader = ⟨none, 0⟩
    ∧ ((⟨none, 0⟩ : DataFrameReader).csv ⟨"NS"⟩ ⟨[[]]⟩ "@p").store = ⟨[[]]⟩ :=
  (C10_error_branch_preserves_state ⟨none, 0⟩ ⟨"NS"⟩ ⟨[[]]⟩ "@p" "JSON").1
    (.snowparkClientException "Must provide user schema before reading file") (by decide)

end Snowpark
